import Mathlib

/-!
Verification development for `meep_adjoint/optimization_problem.py`.

The file shallowly embeds the `OptimizationProblem` facade (its `__init__`,
`__call__`, `update_design`, `get_fdf_funcs` methods) and the module-level
helper `plot_mesh`.  Python exceptions are modelled with `Except`; because
Python mutations performed before a raise persist on the object, an error
carries the object state at the moment of the raise.

The `TimeStepper` collaborator (module `meep_adjoint`, re-exported by the
package `__init__`) is not among the given sources — only its call sites in
`optimization_problem.py` are — so its run-state machine is modelled from the
spec (sections 4.1 and 5), instrumented with run counters as the spec's own
testable properties suggest ("verifiable via a call counter on the Run Driver
mock").

A load-bearing fact of the source module: its only imports are `os`,
`inspect`, `meep as mp` and the names `DFTCell, ObjectiveFunction,
TimeStepper, FiniteElementBasis, rescale_sources, E_CPTS` from the package.
The name `warnings` is never bound, so both occurrences of
`warnings.warn(...)` (line 192 inside `__call__` and line 288 inside
`plot_mesh`) raise `NameError: name 'warnings' is not defined` when reached.
The embedding reflects this faithfully.
-/

set_option linter.unusedVariables false

namespace MeepAdjoint

/-- Design-variable vectors, objective/quantity vectors and gradient vectors:
ordered sequences of numbers.  The numeric payloads never influence the
facade's control flow, so integers suffice for the embedding. -/
abbrev Vec := List Int

/-- Python-level exceptions that the embedded code can raise. -/
inductive PyErr where
  | nameError : String → PyErr
  | attributeError : String → PyErr
  | typeError : String → PyErr
  | indexError : String → PyErr
  | simulationError : String → PyErr
  deriving DecidableEq, Repr

/-- The basis collaborator: immutable for the lifetime of the facade; exposes
its spatial `domain` and the projection operator used by `update_design`.
Design functions handed to `project` are opaque handles, modelled as `Nat`. -/
structure Basis where
  domain : Nat
  dimension : Nat
  projectFn : Nat → Vec

/-- The design-function object stored by the facade.  Its `set_coefficients`
method stores whatever vector it is handed — in `update_design` that value is
`self.beta_vector`, which can be Python `None` when no argument was given. -/
structure DesignFunction where
  coefficients : Option Vec
  deriving DecidableEq, Repr

/-- Modelled from the spec: the run-state of the `TimeStepper` collaborator
(the `TimeStepper` module is not among the given sources, only its call sites
are).  `state` is the string the source compares against (`'reset'`,
`'forward.complete'`, ...); `forwardRuns` / `adjointRuns` count executed runs;
`adjointResetInvocations` counts how often an adjoint run was entered while
the state was `'reset'` (spec 4.1: such an invocation triggers an implicit
forward run); `fq` / `gradf` hold the data of the last completed runs. -/
structure Stepper where
  state : String
  forwardRuns : Nat
  adjointRuns : Nat
  adjointResetInvocations : Nat
  fq : Option Vec
  gradf : Option Vec
  deriving DecidableEq, Repr

/-- Modelled from the spec: the outcome of the physical simulation (the Run
Driver) for the current design: the forward run yields the
objective-and-quantities vector, the adjoint run yields the gradient vector;
either may fail with a simulation-level error that is propagated unchanged
(spec sections 5 and 7). -/
structure Physics where
  forward : Option Vec → Except PyErr Vec
  adjoint : Option Vec → Except PyErr Vec

/-- State of one `OptimizationProblem` instance: the fields assigned by
`__init__` and `update_design` in the source. -/
structure OptimizationProblem where
  basis : Basis
  design_function : DesignFunction
  beta_vector : Option Vec
  stepper : Stepper

/-- Modelled from the spec: a freshly constructed `TimeStepper` has no valid
run data for the current design, i.e. starts in state `'reset'` (spec 3: Run
State `reset` = "no run valid for current coefficients"). -/
def initialStepper : Stepper :=
  { state := "reset", forwardRuns := 0, adjointRuns := 0,
    adjointResetInvocations := 0, fq := none, gradf := none }

/-- Embedding of `OptimizationProblem.__init__` (lines 30-140).  The source
stores `basis` and immediately reads `self.basis.domain` (line 111): when the
caller passes `basis=None` this raises `AttributeError` before the
`TimeStepper` is even constructed, hence before any run can be attempted.
Note the constructor signature has no `design_region` alternative (despite the
docstring): `basis` is the only way to specify the function space.  The
`beta_vector` argument is accepted but never stored by `__init__` (the
attribute `self.beta_vector` is first assigned in `update_design`), modelled
as `none`. -/
def opInit (sim : Nat) (objective_regions : List Nat) (basis : Option Basis)
    (objective_function : String) (beta_vector : Option Vec)
    (design_function : DesignFunction) : Except PyErr OptimizationProblem :=
  match basis with
  | none => Except.error (PyErr.attributeError "domain")
  | some b =>
      Except.ok { basis := b, design_function := design_function,
                  beta_vector := none, stepper := initialStepper }

/-- Embedding of `OptimizationProblem.update_design` (lines 225-246):

-- self.beta_vector = self.basis.project(design) if design else beta_vector
-- self.design_function.set_coefficients(self.beta_vector)
-- self.stepper.state = 'reset'

There is no argument validation in the source: `design` wins when both are
supplied (Python function objects are truthy, so `if design` is `isSome`),
and with neither argument `self.beta_vector` becomes `None`. -/
def update_design (self : OptimizationProblem) (beta_vector : Option Vec)
    (design : Option Nat) : OptimizationProblem :=
  let bv : Option Vec :=
    match design with
    | some d => some (self.basis.projectFn d)
    | none => beta_vector
  { self with beta_vector := bv,
              design_function := { coefficients := bv },
              stepper := { self.stepper with state := "reset" } }

/-- The first two lines of `OptimizationProblem.__call__` (lines 183-184):
update the design when either a new `beta_vector` or a new `design` was
supplied, otherwise leave the object untouched. -/
def applyUpdate (self : OptimizationProblem) (beta_vector : Option Vec)
    (design : Option Nat) : OptimizationProblem :=
  if beta_vector.isSome || design.isSome then update_design self beta_vector design
  else self

/-- Modelled from the spec: `TimeStepper.run` (the `TimeStepper` module is not
among the given sources).  Spec 4.1: `run('forward')` always re-executes the
forward simulation and moves to `forward.complete`; `run('adjoint')` entered
in state `'reset'` first performs an implicit forward run (with a warning),
otherwise it executes the adjoint simulation directly and moves to
`adjoint.complete`.  Spec 5: a failed run propagates its error and leaves the
run state at its pre-run value. -/
def stepperRun (phys : Physics) (df : DesignFunction) (kind : String)
    (st : Stepper) : Except (PyErr × Stepper) (Vec × Stepper) :=
  if kind = "forward" then
    match phys.forward df.coefficients with
    | Except.error e => Except.error (e, st)
    | Except.ok v =>
        Except.ok (v, { st with state := "forward.complete",
                                forwardRuns := st.forwardRuns + 1, fq := some v })
  else if kind = "adjoint" then
    if st.state = "reset" then
      let st1 := { st with adjointResetInvocations := st.adjointResetInvocations + 1 }
      match phys.forward df.coefficients with
      | Except.error e => Except.error (e, st1)
      | Except.ok v =>
          let st2 := { st1 with state := "forward.complete",
                                forwardRuns := st1.forwardRuns + 1, fq := some v }
          match phys.adjoint df.coefficients with
          | Except.error e => Except.error (e, st2)
          | Except.ok g =>
              Except.ok (g, { st2 with state := "adjoint.complete",
                                       adjointRuns := st2.adjointRuns + 1,
                                       gradf := some g })
    else
      match phys.adjoint df.coefficients with
      | Except.error e => Except.error (e, st)
      | Except.ok g =>
          Except.ok (g, { st with state := "adjoint.complete",
                                  adjointRuns := st.adjointRuns + 1,
                                  gradf := some g })
  else Except.error (PyErr.typeError "unknown run kind", st)

/-- The conditional-run expression of `__call__`:
`self.stepper.run(kind) if cond else None` (lines 195-196). -/
def runIf (phys : Physics) (df : DesignFunction) (kind : String) (cond : Bool)
    (st : Stepper) : Except (PyErr × Stepper) (Option Vec × Stepper) :=
  if cond then
    match stepperRun phys df kind st with
    | Except.error es => Except.error es
    | Except.ok (v, st2) => Except.ok (some v, st2)
  else Except.ok (none, st)

/-- Embedding of `OptimizationProblem.__call__` (lines 146-198):

-- if (beta_vector is not None) or (design is not None):
--     self.update_design(beta_vector=beta_vector, design=design)
-- if need_value == False and self.stepper.state == 'reset':
--     warnings.warn('forward run not yet run for this design; ...')
--     need_value = True
-- fq    = self.stepper.run('forward') if need_value else None
-- gradf = self.stepper.run('adjoint') if need_gradient else None
-- return fq, gradf

The module never binds the name `warnings` (see the module docstring above),
so reaching the warn line raises `NameError` and the `need_value = True`
statement below it is unreachable; the embedding returns that error with the
object state at the raise.

`opCallBody` is the part of `__call__` after the optional design update
(lines 191-198), acting on the possibly-updated object `self1`; `opCall`
composes it with the update of lines 183-184. -/
def opCallBody (phys : Physics) (self1 : OptimizationProblem)
    (need_value : Bool) (need_gradient : Bool) :
    Except (PyErr × OptimizationProblem)
      ((Option Vec × Option Vec) × OptimizationProblem) :=
  if need_value = false ∧ self1.stepper.state = "reset" then
    Except.error (PyErr.nameError "warnings", self1)
  else
    match runIf phys self1.design_function "forward" need_value self1.stepper with
    | Except.error (e, st) => Except.error (e, { self1 with stepper := st })
    | Except.ok (fq, st1) =>
        match runIf phys self1.design_function "adjoint" need_gradient st1 with
        | Except.error (e, st) => Except.error (e, { self1 with stepper := st })
        | Except.ok (gradf, st2) =>
            Except.ok ((fq, gradf), { self1 with stepper := st2 })

/-- Embedding of `OptimizationProblem.__call__` (lines 146-198): the optional
design update followed by the run logic of `opCallBody`. -/
def opCall (phys : Physics) (self : OptimizationProblem)
    (beta_vector : Option Vec) (design : Option Nat)
    (need_value : Bool) (need_gradient : Bool) :
    Except (PyErr × OptimizationProblem)
      ((Option Vec × Option Vec) × OptimizationProblem) :=
  opCallBody phys (applyUpdate self beta_vector design) need_value need_gradient

/-- The object state an embedded call leaves behind, whether it returned
normally or raised. -/
def outcomeProblem {α : Type}
    (r : Except (PyErr × OptimizationProblem) (α × OptimizationProblem)) :
    OptimizationProblem :=
  match r with
  | Except.error (_, s) => s
  | Except.ok (_, s) => s

/-- Embedding of the closure `_f` returned by
`OptimizationProblem.get_fdf_funcs` (lines 211-213): calls
`self.__call__(beta_vector=x, need_gradient=False)` and returns `fq[0]`
(Python subscripting: `TypeError` on `None`, `IndexError` on an empty list). -/
def f_func (phys : Physics) (self : OptimizationProblem) (x : Option Vec) :
    Except (PyErr × OptimizationProblem) (Int × OptimizationProblem) :=
  match opCall phys self x none true false with
  | Except.error es => Except.error es
  | Except.ok ((fq, _), s) =>
      match fq with
      | none => Except.error (PyErr.typeError "NoneType is not subscriptable", s)
      | some [] => Except.error (PyErr.indexError "list index out of range", s)
      | some (a :: _) => Except.ok (a, s)

/-- Embedding of the closure `_df` returned by
`OptimizationProblem.get_fdf_funcs` (lines 215-217):

-- def _df(x=None):
--     (_, df) = self.__call__(need_value=False)
--     return df

The parameter `x` does not occur in the body: the call passes neither
`beta_vector` nor `design`. -/
def df_func (phys : Physics) (self : OptimizationProblem) (x : Option Vec) :
    Except (PyErr × OptimizationProblem) (Option Vec × OptimizationProblem) :=
  match opCall phys self none none false true with
  | Except.error es => Except.error es
  | Except.ok ((_, df), s) => Except.ok (df, s)

/-- Embedding of `OptimizationProblem.get_fdf_funcs` (lines 201-219): returns
the pair of standalone callables `(_f, _df)`. -/
def get_fdf_funcs (phys : Physics) (self : OptimizationProblem) :
    (Option Vec → Except (PyErr × OptimizationProblem) (Int × OptimizationProblem)) ×
    (Option Vec → Except (PyErr × OptimizationProblem) (Option Vec × OptimizationProblem)) :=
  (f_func phys self, df_func phys self)

/-- Observable outcome of `plot_mesh` when it returns normally. -/
inductive PlotResult where
  | skipped
  | plotted
  deriving DecidableEq, Repr

/-- Embedding of the module-level helper `plot_mesh` (lines 278-288).  It
returns early when `lw == 0.0`; otherwise it tries `import dolfin` inside the
function body.  When that import succeeds the mesh is plotted; when it raises
`ImportError` the handler executes `warnings.warn(...)` — but the module never
binds `warnings`, so the handler itself raises `NameError`, which is not
caught and propagates out of `plot_mesh`. -/
def plot_mesh (dolfinAvailable : Bool) (mesh : Nat) (lc : String) (lw : Rat) :
    Except PyErr PlotResult :=
  if lw = 0 then Except.ok PlotResult.skipped
  else if dolfinAvailable then Except.ok PlotResult.plotted
  else Except.error (PyErr.nameError "warnings")

/-! Concrete instances used by witnesses and counterexamples. -/

/-- A concrete two-dimensional basis whose projection of any design handle is
the vector `[3, 4]`. -/
def basis0 : Basis := { domain := 0, dimension := 2, projectFn := fun _ => [3, 4] }

/-- A concrete design function currently holding coefficients `[1, 2]`. -/
def df0 : DesignFunction := { coefficients := some [1, 2] }

/-- A freshly constructed problem (state `'reset'`). -/
def prob0 : OptimizationProblem :=
  { basis := basis0, design_function := df0, beta_vector := some [1, 2],
    stepper := initialStepper }

/-- A problem whose forward run has already completed. -/
def prob1 : OptimizationProblem :=
  { basis := basis0, design_function := df0, beta_vector := some [1, 2],
    stepper := { initialStepper with
                   state := "forward.complete"
                   forwardRuns := 1
                   fq := some [5] } }

/-- A problem in state `'adjoint.complete'` with stored vector `[9]`. -/
def prob2 : OptimizationProblem :=
  { basis := basis0, design_function := df0, beta_vector := some [9],
    stepper := { initialStepper with state := "adjoint.complete" } }

/-- A simulation oracle whose runs always succeed. -/
def physOk : Physics :=
  { forward := fun _ => Except.ok [5], adjoint := fun _ => Except.ok [7, 8] }

/-- A simulation oracle whose forward run fails. -/
def physFailF : Physics :=
  { forward := fun _ => Except.error (PyErr.simulationError "meep forward run failed"),
    adjoint := fun _ => Except.ok [7, 8] }

/-- A simulation oracle whose adjoint run fails. -/
def physFailA : Physics :=
  { forward := fun _ => Except.ok [5],
    adjoint := fun _ => Except.error (PyErr.simulationError "meep adjoint run failed") }

/-! Unfolding lemmas for the embedded operations. -/

/-- Unfolding of `stepperRun` at kind `'forward'`. -/
lemma stepperRun_forward_eq (phys : Physics) (df : DesignFunction) (st : Stepper) :
    stepperRun phys df "forward" st =
      (match phys.forward df.coefficients with
       | Except.error e => Except.error (e, st)
       | Except.ok v =>
           Except.ok (v, { st with state := "forward.complete",
                                   forwardRuns := st.forwardRuns + 1, fq := some v })) :=
  rfl

/-- Unfolding of `stepperRun` at kind `'adjoint'` from a non-reset state: no
implicit forward run happens. -/
lemma stepperRun_adjoint_notReset (phys : Physics) (df : DesignFunction)
    (st : Stepper) (h : st.state ≠ "reset") :
    stepperRun phys df "adjoint" st =
      (match phys.adjoint df.coefficients with
       | Except.error e => Except.error (e, st)
       | Except.ok g =>
           Except.ok (g, { st with state := "adjoint.complete",
                                   adjointRuns := st.adjointRuns + 1,
                                   gradf := some g })) := by
  unfold stepperRun
  rw [if_neg (by decide), if_pos rfl, if_neg h]

/-- Unfolding of `runIf` with a true condition. -/
lemma runIf_true (phys : Physics) (df : DesignFunction) (kind : String)
    (st : Stepper) :
    runIf phys df kind true st =
      (match stepperRun phys df kind st with
       | Except.error es => Except.error es
       | Except.ok (v, st2) => Except.ok (some v, st2)) :=
  rfl

/-- Unfolding of `runIf` with a false condition: the run is skipped. -/
lemma runIf_false (phys : Physics) (df : DesignFunction) (kind : String)
    (st : Stepper) :
    runIf phys df kind false st = Except.ok (none, st) :=
  rfl

/-- An update through `applyUpdate` touches the `adjointResetInvocations`
counter of the stepper in no case. -/
lemma applyUpdate_ari (p : OptimizationProblem) (bv : Option Vec) (d : Option Nat) :
    (applyUpdate p bv d).stepper.adjointResetInvocations =
      p.stepper.adjointResetInvocations := by
  cases bv <;> cases d <;> rfl

/-- The two literal run states reached by completed runs differ from reset. -/
lemma forwardComplete_ne_reset : ("forward.complete" : String) ≠ "reset" := by decide

/-! Claim theorems. -/

/-- Claim C1 (status: code_bug, evaluation of the code at the failing input).
A `__call__` with `need_value=False` while the stepper state is `'reset'`
raises `NameError: name 'warnings' is not defined` — the module never imports
`warnings` — instead of surfacing the documented warning, forcing the forward
run and returning a gradient.  The raise happens before any run, with every
field of the object unchanged. -/
theorem call_gradient_only_from_reset_raises_nameError :
    ∀ (phys : Physics) (b : Basis) (df : DesignFunction) (bv : Option Vec)
      (fr ar ari : Nat) (fqv gf : Option Vec) (ng : Bool),
      opCall phys
        { basis := b, design_function := df, beta_vector := bv,
          stepper := { state := "reset", forwardRuns := fr, adjointRuns := ar,
                       adjointResetInvocations := ari, fq := fqv, gradf := gf } }
        none none false ng
        = Except.error (PyErr.nameError "warnings",
            { basis := b, design_function := df, beta_vector := bv,
              stepper := { state := "reset", forwardRuns := fr, adjointRuns := ar,
                           adjointResetInvocations := ari, fq := fqv, gradf := gf } }) := by
  intro phys b df bv fr ar ari fqv gf ng
  rfl

/-- Claim C3 (status: confirmed).  Every design update leaves the run state at
`'reset'` immediately afterwards and before any run is driven: directly via
`update_design`, and via the update step of `__call__` (`applyUpdate`, which
runs before the forward/adjoint stages of `opCallBody`) whenever a new
coefficient vector or a new design function is supplied. -/
theorem update_sets_state_reset :
    ∀ (self : OptimizationProblem) (bv : Option Vec) (d : Option Nat)
      (v : Vec) (dd : Nat),
      (update_design self bv d).stepper.state = "reset" ∧
      (applyUpdate self (some v) d).stepper.state = "reset" ∧
      (applyUpdate self bv (some dd)).stepper.state = "reset" := by
  intro self bv d v dd
  refine ⟨rfl, rfl, ?_⟩
  cases bv <;> rfl

/-- Claim C4 (status: corrected), counterexample.  `update_design` with both
arguments supplied is not rejected: no error is raised (`update_design` is a
total function, mirroring the absence of any validation or raise in lines
244-246 of the source), the stored vector is replaced by the projection of
`design` (the explicit `beta_vector` argument is ignored) and the run state is
mutated to `'reset'`.  With neither argument supplied the stored vector is
silently set to `None` and the state is likewise mutated.  Here `prob2` holds
vector `[9]` in state `'adjoint.complete'` beforehand. -/
theorem update_design_conflicting_args_counterexample :
    (update_design prob2 (some [5]) (some 3)).stepper.state = "reset" ∧
    (update_design prob2 (some [5]) (some 3)).beta_vector = some [3, 4] ∧
    (update_design prob2 none none).beta_vector = none ∧
    (update_design prob2 none none).stepper.state = "reset" ∧
    prob2.stepper.state ≠ "reset" ∧
    prob2.beta_vector = some [9] := by
  exact ⟨rfl, rfl, rfl, rfl, by decide, rfl⟩

/-- Claim C4 (status: corrected), amended claim.  `update_design` performs no
argument validation: when both `beta_vector` and `design` are supplied,
`design` takes precedence (the stored vector becomes its projection onto the
basis and the explicit vector is ignored); when neither is supplied the stored
vector becomes `None`; in every case the design function is overwritten with
the new vector, the run state is set to `'reset'`, and no error is raised. -/
theorem update_design_no_validation :
    ∀ (self : OptimizationProblem) (v : Vec) (dd : Nat),
      (update_design self (some v) (some dd)).beta_vector
          = some (self.basis.projectFn dd) ∧
      (update_design self (some v) (some dd)).design_function.coefficients
          = some (self.basis.projectFn dd) ∧
      (update_design self (some v) (some dd)).stepper.state = "reset" ∧
      (update_design self none none).beta_vector = none ∧
      (update_design self none none).design_function.coefficients = none ∧
      (update_design self none none).stepper.state = "reset" :=
  fun _ _ _ => ⟨rfl, rfl, rfl, rfl, rfl, rfl⟩

/-- Claim C8 (status: confirmed).  Constructing an `OptimizationProblem`
without a basis fails immediately: line 111 reads `self.basis.domain`, which
raises `AttributeError` on `None` before the `TimeStepper` is even built, so
no run can have been attempted.  When a basis is supplied, construction
succeeds with a stepper that has executed zero forward and zero adjoint runs.
(The `design_region` alternative described in the constructor docstring is
absent from the signature, so the both-supplied conflict cannot even be
expressed; in Python it would be a `TypeError` at call time, equally fatal and
equally prior to any run.) -/
theorem init_without_basis_fails_before_any_run :
    ∀ (sim : Nat) (regs : List Nat) (fstr : String) (bv : Option Vec)
      (df : DesignFunction),
      opInit sim regs none fstr bv df
          = Except.error (PyErr.attributeError "domain") ∧
      ∀ (b : Basis),
        opInit sim regs (some b) fstr bv df
            = Except.ok { basis := b, design_function := df, beta_vector := none,
                          stepper := initialStepper } ∧
        initialStepper.forwardRuns = 0 ∧ initialStepper.adjointRuns = 0 :=
  fun _ _ _ _ _ => ⟨rfl, fun _ => ⟨rfl, rfl, rfl⟩⟩

/-- Claim C9 (status: code_bug, evaluation of the code at the failing input).
When the optional `dolfin` dependency is unavailable (and the linewidth is
nonzero, so the early return is not taken), `plot_mesh` is not non-fatal: the
`except ImportError` handler executes `warnings.warn(...)`, but the module
never imports `warnings`, so the handler raises `NameError`, which is not an
`ImportError` and propagates to the caller instead of a warning followed by a
normal return. -/
theorem plot_mesh_missing_dolfin_raises_nameError :
    ∀ (mesh : Nat) (lc : String),
      plot_mesh false mesh lc 1 = Except.error (PyErr.nameError "warnings") := by
  intro mesh lc
  rfl

/-- The run logic of `__call__` never touches the count of adjoint runs
entered from a reset state: whichever path is taken (including every failure
path), the instrumentation counter is exactly what it was before the call. -/
lemma opCallBody_ari (phys : Physics) (s : OptimizationProblem) (nv ng : Bool) :
    (outcomeProblem (opCallBody phys s nv ng)).stepper.adjointResetInvocations
      = s.stepper.adjointResetInvocations := by
  unfold opCallBody
  by_cases hg : (nv = false ∧ s.stepper.state = "reset")
  · rw [if_pos hg]; rfl
  · rw [if_neg hg]
    cases nv with
    | false =>
        have hs : s.stepper.state ≠ "reset" := fun h => hg ⟨rfl, h⟩
        rw [runIf_false]
        dsimp only
        cases ng with
        | false => rw [runIf_false]; rfl
        | true =>
            rw [runIf_true, stepperRun_adjoint_notReset phys _ _ hs]
            cases ha : phys.adjoint s.design_function.coefficients <;> rfl
    | true =>
        rw [runIf_true, stepperRun_forward_eq]
        cases hf : phys.forward s.design_function.coefficients with
        | error e => rfl
        | ok v =>
            dsimp only
            cases ng with
            | false => rw [runIf_false]; rfl
            | true =>
                rw [runIf_true,
                    stepperRun_adjoint_notReset phys _ _ forwardComplete_ne_reset]
                cases ha : phys.adjoint s.design_function.coefficients <;> rfl

/-- The run logic of `__call__` changes only the `stepper` field of the
object: basis, stored vector and design function come out untouched on every
path, successful or failing. -/
lemma opCallBody_only_stepper (phys : Physics) (s : OptimizationProblem)
    (nv ng : Bool) :
    (outcomeProblem (opCallBody phys s nv ng)).beta_vector = s.beta_vector ∧
    (outcomeProblem (opCallBody phys s nv ng)).design_function
        = s.design_function := by
  unfold opCallBody
  by_cases hg : (nv = false ∧ s.stepper.state = "reset")
  · rw [if_pos hg]; exact ⟨rfl, rfl⟩
  · rw [if_neg hg]
    cases nv with
    | false =>
        have hs : s.stepper.state ≠ "reset" := fun h => hg ⟨rfl, h⟩
        rw [runIf_false]
        dsimp only
        cases ng with
        | false => rw [runIf_false]; exact ⟨rfl, rfl⟩
        | true =>
            rw [runIf_true, stepperRun_adjoint_notReset phys _ _ hs]
            cases ha : phys.adjoint s.design_function.coefficients <;>
              exact ⟨rfl, rfl⟩
    | true =>
        rw [runIf_true, stepperRun_forward_eq]
        cases hf : phys.forward s.design_function.coefficients with
        | error e => exact ⟨rfl, rfl⟩
        | ok v =>
            dsimp only
            cases ng with
            | false => rw [runIf_false]; exact ⟨rfl, rfl⟩
            | true =>
                rw [runIf_true,
                    stepperRun_adjoint_notReset phys _ _ forwardComplete_ne_reset]
                cases ha : phys.adjoint s.design_function.coefficients <;>
                  exact ⟨rfl, rfl⟩

/-- Claim C2 (status: confirmed).  The facade never drives the adjoint run
from a reset state: across every `__call__` — any combination of new
coefficients, new design, `need_value` and `need_gradient` flags, and any
simulation outcomes — `stepperRun` is never entered with kind `'adjoint'`
while the state is `'reset'` (the instrumentation counter that such an entry
would increment is left exactly as it was).  Together with `stepperRun`
reaching `'forward.complete'` only by executing a forward run and
`update_design` resetting the state on every coefficient change, this means
every gradient handed out was computed against forward data of the current
design: a forward run either ran earlier in the same call (`need_value` true)
or had already completed for the unchanged coefficients. -/
theorem opCall_never_runs_adjoint_from_reset :
    ∀ (phys : Physics) (p : OptimizationProblem) (bv : Option Vec)
      (d : Option Nat) (nv ng : Bool),
      (outcomeProblem (opCall phys p bv d nv ng)).stepper.adjointResetInvocations
        = p.stepper.adjointResetInvocations := by
  intro phys p bv d nv ng
  unfold opCall
  rw [opCallBody_ari, applyUpdate_ari]

/-- Claim C6 (status: corrected), counterexample.  On a fresh design (state
`'reset'`, here `prob0`), a query with `need_value=False` and
`need_gradient=False` is not a no-op returning `(None, None)`: line 191 tests
only `need_value` and the state, so the guard fires even though no run was
requested, and the call raises `NameError` (the unimported `warnings`). -/
theorem noop_query_reset_counterexample :
    opCall physOk prob0 none none false false
        = Except.error (PyErr.nameError "warnings", prob0) ∧
    opCall physOk prob0 none none false false
        ≠ Except.ok ((none, none), prob0) := by
  constructor
  · rfl
  · intro h
    exact Except.noConfusion
      ((rfl : opCall physOk prob0 none none false false
          = Except.error (PyErr.nameError "warnings", prob0)).symm.trans h)

/-- Claim C6 (status: corrected), amended claim.  A query with
`need_value=False`, `need_gradient=False` and no new coefficients or design is
a no-op returning `(None, None)` — no forward or adjoint run, object returned
exactly as it was — in every run state other than `'reset'`; in state
`'reset'` the guard of line 191 fires regardless of `need_gradient` and the
call raises `NameError` instead (see the counterexample). -/
theorem noop_query_outside_reset :
    ∀ (phys : Physics) (p : OptimizationProblem),
      p.stepper.state ≠ "reset" →
      opCall phys p none none false false = Except.ok ((none, none), p) := by
  intro phys p h
  show opCallBody phys p false false = _
  unfold opCallBody
  rw [if_neg (fun hc => h hc.2)]
  rw [runIf_false]
  dsimp only
  rw [runIf_false]

/-- Witness for `noop_query_outside_reset` at the forward-complete problem
`prob1`. -/
theorem noop_query_outside_reset_witness :
    prob1.stepper.state ≠ "reset" ∧
    opCall physOk prob1 none none false false = Except.ok ((none, none), prob1) :=
  ⟨by decide, noop_query_outside_reset physOk prob1 (by decide)⟩

/-- Claim C7 (status: confirmed).  `__call__` wraps the stepper runs in no
try/except (lines 195-196), in every flag configuration in which a run can
execute:
a failing forward run — requested alone (`need_gradient` false) or together
with a gradient — propagates its error unchanged with the object exactly as
it was after the (optional) design update, the run state not advanced;
a failing adjoint run after a completed forward run in the same call
propagates its error unchanged with the run state exactly as the forward run
left it; and a failing adjoint run in a gradient-only call
(`need_value=False` from a non-reset state) propagates its error unchanged
with the object exactly as it was before the call.  In no case does the
facade catch, transform or swallow the error, or add a state transition of
its own, so the design is never marked complete for data that was never
produced. -/
theorem stepper_failure_propagates :
    ∀ (phys : Physics) (p : OptimizationProblem) (bv : Option Vec)
      (d : Option Nat) (e : PyErr) (v : Vec) (ng : Bool),
      (phys.forward (applyUpdate p bv d).design_function.coefficients
            = Except.error e →
        opCall phys p bv d true ng = Except.error (e, applyUpdate p bv d)) ∧
      (phys.forward (applyUpdate p bv d).design_function.coefficients
            = Except.ok v →
       phys.adjoint (applyUpdate p bv d).design_function.coefficients
            = Except.error e →
        opCall phys p bv d true true
          = Except.error (e,
              { applyUpdate p bv d with
                  stepper := { (applyUpdate p bv d).stepper with
                                 state := "forward.complete"
                                 forwardRuns :=
                                   (applyUpdate p bv d).stepper.forwardRuns + 1
                                 fq := some v } })) ∧
      ((applyUpdate p bv d).stepper.state ≠ "reset" →
       phys.adjoint (applyUpdate p bv d).design_function.coefficients
            = Except.error e →
        opCall phys p bv d false true = Except.error (e, applyUpdate p bv d)) := by
  intro phys p bv d e v ng
  refine ⟨?_, ?_, ?_⟩
  · intro hf
    unfold opCall opCallBody
    rw [if_neg (by simp)]
    rw [runIf_true, stepperRun_forward_eq, hf]
  · intro hf ha
    unfold opCall opCallBody
    rw [if_neg (by simp)]
    rw [runIf_true, stepperRun_forward_eq, hf]
    dsimp only
    rw [runIf_true, stepperRun_adjoint_notReset phys _ _ forwardComplete_ne_reset,
        ha]
  · intro hs ha
    unfold opCall opCallBody
    rw [if_neg (fun hc => hs hc.2)]
    rw [runIf_false]
    dsimp only
    rw [runIf_true, stepperRun_adjoint_notReset phys _ _ hs, ha]

/-- Witness for `stepper_failure_propagates`, exercising all three failure
configurations: a failing forward run in a value-only call on `prob0`
propagates its simulation error with `prob0` untouched; a failing adjoint run
after the forward run of the same call propagates its simulation error with
the state exactly forward-complete; and a failing adjoint run in a
gradient-only call on the forward-complete `prob1` propagates its simulation
error with `prob1` untouched. -/
theorem stepper_failure_propagates_witness :
    opCall physFailF prob0 none none true false
        = Except.error (PyErr.simulationError "meep forward run failed", prob0) ∧
    opCall physFailA prob0 none none true true
        = Except.error (PyErr.simulationError "meep adjoint run failed",
            { prob0 with stepper := { initialStepper with
                                        state := "forward.complete"
                                        forwardRuns := 1
                                        fq := some [5] } }) ∧
    opCall physFailA prob1 none none false true
        = Except.error (PyErr.simulationError "meep adjoint run failed", prob1) := by
  refine ⟨?_, ?_, ?_⟩
  · exact (stepper_failure_propagates physFailF prob0 none none
      (PyErr.simulationError "meep forward run failed") [5] false).1 rfl
  · exact (stepper_failure_propagates physFailA prob0 none none
      (PyErr.simulationError "meep adjoint run failed") [5] true).2.1 rfl rfl
  · exact (stepper_failure_propagates physFailA prob1 none none
      (PyErr.simulationError "meep adjoint run failed") [5] true).2.2
      (by decide) rfl

/-- A gradient-only query from a forward-complete state performs no forward
run: the forward-run counter and the stored forward data are untouched,
whether the adjoint run succeeds or fails. -/
lemma gradient_only_call_no_forward (phys : Physics) (q : OptimizationProblem)
    (h : q.stepper.state = "forward.complete") :
    (outcomeProblem (opCall phys q none none false true)).stepper.forwardRuns
        = q.stepper.forwardRuns ∧
    (outcomeProblem (opCall phys q none none false true)).stepper.fq
        = q.stepper.fq := by
  show (outcomeProblem (opCallBody phys q false true)).stepper.forwardRuns = _ ∧
       (outcomeProblem (opCallBody phys q false true)).stepper.fq = _
  unfold opCallBody
  rw [if_neg (fun hc => forwardComplete_ne_reset (h.symm.trans hc.2))]
  rw [runIf_false]
  dsimp only
  rw [runIf_true,
      stepperRun_adjoint_notReset phys _ _
        (fun hr => forwardComplete_ne_reset (h.symm.trans hr))]
  cases ha : phys.adjoint q.design_function.coefficients <;> exact ⟨rfl, rfl⟩

/-- Claim C5 (status: confirmed).  If a query with `need_gradient=False`
completed (so the forward run executed and the object ended at `s1`), then a
subsequent query with `need_value=False, need_gradient=True` and no
coefficient change performs no forward run: the forward-run counter and the
stored forward data of `s1` are exactly preserved — the adjoint stage reuses
the forward data produced by the first call. -/
theorem second_call_reuses_forward_run :
    ∀ (phys : Physics) (p : OptimizationProblem) (res : Option Vec × Option Vec)
      (s1 : OptimizationProblem),
      opCall phys p none none true false = Except.ok (res, s1) →
      (outcomeProblem (opCall phys s1 none none false true)).stepper.forwardRuns
          = s1.stepper.forwardRuns ∧
      (outcomeProblem (opCall phys s1 none none false true)).stepper.fq
          = s1.stepper.fq := by
  intro phys p res s1 h1
  have hchar : s1.stepper.state = "forward.complete" := by
    have h1' : opCallBody phys p true false = Except.ok (res, s1) := h1
    revert h1'
    unfold opCallBody
    rw [if_neg (by simp)]
    rw [runIf_true, stepperRun_forward_eq]
    cases hf : phys.forward p.design_function.coefficients with
    | error e => intro h'; exact Except.noConfusion h'
    | ok v =>
        intro h'
        have h2 : s1 = { p with stepper := { p.stepper with
                           state := "forward.complete"
                           forwardRuns := p.stepper.forwardRuns + 1
                           fq := some v } } :=
          (congrArg outcomeProblem h').symm
        rw [h2]
  exact gradient_only_call_no_forward phys s1 hchar

/-- Witness for `second_call_reuses_forward_run`: after a value-only call on
the fresh `prob0` (which ends at `prob1`), the gradient-only call leaves the
forward-run counter and the forward data of `prob1` unchanged. -/
theorem second_call_reuses_forward_run_witness :
    (outcomeProblem (opCall physOk prob1 none none false true)).stepper.forwardRuns
        = prob1.stepper.forwardRuns ∧
    (outcomeProblem (opCall physOk prob1 none none false true)).stepper.fq
        = prob1.stepper.fq :=
  second_call_reuses_forward_run physOk prob0 (some [5], none) prob1 rfl

/-- Claim C10 (status: confirmed).  The gradient closure `_df` returned by
`get_fdf_funcs` ignores its argument entirely: its body calls
`self.__call__(need_value=False)` with neither `beta_vector` nor `design`, so
`df_func x` is literally the same computation as `df_func None`, the stored
coefficient vector and design function are never updated, and the gradient
returned is the one for the currently stored design. -/
theorem df_func_ignores_argument :
    ∀ (phys : Physics) (self : OptimizationProblem) (x : Option Vec),
      (get_fdf_funcs phys self).2 x = (get_fdf_funcs phys self).2 none ∧
      (outcomeProblem ((get_fdf_funcs phys self).2 x)).beta_vector
          = self.beta_vector ∧
      (outcomeProblem ((get_fdf_funcs phys self).2 x)).design_function
          = self.design_function := by
  intro phys self x
  refine ⟨rfl, ?_, ?_⟩ <;>
  · have he : outcomeProblem ((get_fdf_funcs phys self).2 x)
        = outcomeProblem (opCallBody phys self false true) := by
      show outcomeProblem (df_func phys self x) = _
      unfold df_func
      cases hc : opCall phys self none none false true with
      | error es =>
          cases es with
          | mk e s => exact congrArg outcomeProblem hc.symm
      | ok r =>
          rcases r with ⟨⟨fq, df⟩, s⟩
          exact congrArg outcomeProblem hc.symm
    rw [he]
    first
      | exact (opCallBody_only_stepper phys self false true).1
      | exact (opCallBody_only_stepper phys self false true).2

end MeepAdjoint
